import Mathlib

set_option autoImplicit false

/-!
Verification of the wesql-scale query-serving core against its specification.

The development shallowly embeds the relevant Go sources:

* `go/pools/resource_pool.go` — the generic bounded resource pool.  The two Go
  channels (`resources`, `settingResources`, both of capacity `maxCap`) are
  modelled as FIFO lists of wrapper slots; an `Option Resource` is a
  `resourceWrapper` (`none` = empty slot, i.e. `wrapper.resource == nil`;
  the `timeUsed` field only feeds the idle sweep, which is not modelled).
  The `sync2.AtomicInt64` gauges and counters are modelled as `Int`
  (mathematical integers; none of the modelled executions approach 2^63).
  Outcomes of external calls (`factory`, `ResetSetting`, `ApplySetting`,
  `Expired`, context cancellation) are passed in explicitly as environment
  records, so every function is executable and deterministic.
  A `Get` that parks in the inner `select` with no sender is rendered as the
  explicit outcome `GetResult.blocked`.

* the TabletServer request-execution envelope (`execRequest`,
  `handlePanicAndSendLogStats`, `convertAndLogError`, `convertErrorCode`,
  `queryAsString`, and the transactionID/reservedID guard of
  `Execute`/`StreamExecute`).

* the state manager's externally reported servingness.  The state manager
  implementation itself is not among the provided sources (only its unit test
  and its callers are), so `IsServingString` is modelled from the spec and
  checked against the vectors of `TestStateManagerStateByName`.
-/

namespace Vtrpc

/-- The vtrpc status-code taxonomy used by vterrors. -/
inductive Code
  | OK
  | UNKNOWN
  | INTERNAL
  | RESOURCE_EXHAUSTED
  | DEADLINE_EXCEEDED
  | FAILED_PRECONDITION
  | NOT_FOUND
  | PERMISSION_DENIED
  | INVALID_ARGUMENT
  | ALREADY_EXISTS
  | ABORTED
  | UNAVAILABLE
  | CANCELED
  | UNIMPLEMENTED
  | CLUSTER_EVENT
deriving DecidableEq, Repr

end Vtrpc

namespace Pools

/-- A pooled resource.  `rid` identifies the concrete resource; `setting` is
the session setting currently applied to it (`none` when no setting is
applied).  `IsSettingApplied`/`IsSameSetting` below mirror the `Resource`
interface of `resource_pool.go`; `ApplySetting`/`ResetSetting` update the
`setting` tag on success. -/
structure Resource where
  rid : Nat
  setting : Option String
deriving DecidableEq, Repr

/-- `Resource.IsSettingApplied`. -/
def Resource.IsSettingApplied (r : Resource) : Bool :=
  r.setting.isSome

/-- `Resource.IsSameSetting(query)`. -/
def Resource.IsSameSetting (r : Resource) (query : String) : Bool :=
  r.setting == some query

/-- `pools.Setting`: a set query / reset query pair for session settings. -/
structure Setting where
  withoutDBName : Bool
  query : String
  resetQuery : String
deriving DecidableEq, Repr

/-- `pools.NewSetting`. -/
def NewSetting (withoutDBName : Bool) (query resetQuery : String) : Setting :=
  { withoutDBName := withoutDBName, query := query, resetQuery := resetQuery }

/-- The state of a `pools.ResourcePool`.  The two buffered channels are FIFO
lists (head = next value received, send appends at the tail); each element is
a `resourceWrapper` rendered as `Option Resource`.  `closed` records that
`SetCapacity(0)` has closed both channels (in every reachable closed state the
channels have been drained, so a receive yields `ok == false`). -/
structure ResourcePool where
  resources : List (Option Resource)
  settingResources : List (Option Resource)
  maxCap : Nat
  capacity : Int
  available : Int
  active : Int
  inUse : Int
  closed : Bool
  getCount : Int
  getSettingCount : Int
  diffSettingCount : Int
  resetSettingCount : Int
  waitCount : Int
  exhausted : Int
  maxLifetimeClosed : Int
deriving DecidableEq, Repr

/-- `pools.NewResourcePool` (timers, refresh and prefill are not modelled).
The Go constructor panics on `capacity <= 0 || maxCap <= 0 || capacity >
maxCap`; the panic is rendered as `none`. -/
def NewResourcePool (capacity maxCap : Nat) : Option ResourcePool :=
  if capacity = 0 ∨ maxCap = 0 ∨ maxCap < capacity then none
  else some
    { resources := List.replicate capacity none
      settingResources := []
      maxCap := maxCap
      capacity := (capacity : Int)
      available := (capacity : Int)
      active := 0
      inUse := 0
      closed := false
      getCount := 0
      getSettingCount := 0
      diffSettingCount := 0
      resetSettingCount := 0
      waitCount := 0
      exhausted := 0
      maxLifetimeClosed := 0 }

/-- The error outcomes of `ResourcePool.Get`.  `closedErr` is `ErrClosed`,
`timeout` is `ErrTimeout`, `ctxTimeout` is `ErrCtxTimeout`; `factoryErr` and
`applyErr` carry the error returned by the factory / `ApplySetting`. -/
inductive GetErr
  | closedErr
  | timeout
  | ctxTimeout
  | factoryErr (e : Nat)
  | applyErr (e : Nat)
deriving DecidableEq, Repr

/-- The vtrpc code attached to each pool error: `ErrTimeout` is created with
`Code_RESOURCE_EXHAUSTED`, `ErrCtxTimeout` with `Code_DEADLINE_EXCEEDED`;
`ErrClosed` and pass-through factory/apply errors carry no vtrpc code
(`vterrors.Code` reports UNKNOWN for them). -/
def GetErr.vtCode : GetErr → Vtrpc.Code
  | .timeout => Vtrpc.Code.RESOURCE_EXHAUSTED
  | .ctxTimeout => Vtrpc.Code.DEADLINE_EXCEEDED
  | _ => Vtrpc.Code.UNKNOWN

/-- Result of a `Get`: a resource, an error, or a caller parked in the inner
`select` (no slot queued, pool open, context not yet cancelled). -/
inductive GetResult
  | ok (r : Resource)
  | err (e : GetErr)
  | blocked
deriving DecidableEq, Repr

/-- Environment of one `Get` call: the outcomes of the external calls it may
make.  `ctxCancelledDuringWait` tells whether `ctx.Done()` fires while the
caller is parked in the inner `select`. -/
structure GetEnv where
  ctxCancelledDuringWait : Bool
  resetResult : Except Nat Unit
  factory : Except Nat Resource
  applyResult : Except Nat Unit
deriving Repr

/-- Outcome of the nested `select` that fetches a wrapper. -/
inductive FetchR
  | got (w : Option Resource) (p : ResourcePool)
  | chanClosed
  | wouldBlock
deriving Repr

/-- The fetch phase of `ResourcePool.get`: try `resources` first, then
`settingResources`, then wait.  A receive from a closed (drained) channel
yields `ok == false` immediately. -/
def ResourcePool.fetchPlainFirst (p : ResourcePool) : FetchR :=
  match p.resources with
  | w :: rest => FetchR.got w { p with resources := rest }
  | [] =>
    match p.settingResources with
    | w :: rest => FetchR.got w { p with settingResources := rest }
    | [] => if p.closed then FetchR.chanClosed else FetchR.wouldBlock

/-- The fetch phase of `ResourcePool.getWithSettings`: try `settingResources`
first, then `resources`, then wait. -/
def ResourcePool.fetchSettingFirst (p : ResourcePool) : FetchR :=
  match p.settingResources with
  | w :: rest => FetchR.got w { p with settingResources := rest }
  | [] =>
    match p.resources with
    | w :: rest => FetchR.got w { p with resources := rest }
    | [] => if p.closed then FetchR.chanClosed else FetchR.wouldBlock

/-- The reset phase of `ResourcePool.get`: a fetched resource that still has a
setting applied is reset (and closed, emptying the slot, when the reset
fails). -/
def resetStepPlain (env : GetEnv) (w : Option Resource) (p : ResourcePool) :
    Option Resource × ResourcePool :=
  match w with
  | some r =>
    if r.IsSettingApplied then
      let p1 := { p with resetSettingCount := p.resetSettingCount + 1 }
      match env.resetResult with
      | Except.ok _ => (some { r with setting := none }, p1)
      | Except.error _ => (none, { p1 with active := p1.active - 1 })
    else (some r, p)
  | none => (none, p)

/-- The reset phase of `ResourcePool.getWithSettings`: a fetched resource
whose applied setting differs from the requested one is reset (and closed,
emptying the slot, when the reset fails). -/
def diffSettingStep (s : Setting) (env : GetEnv) (w : Option Resource) (p : ResourcePool) :
    Option Resource × ResourcePool :=
  match w with
  | some r =>
    if r.IsSettingApplied && !(r.IsSameSetting s.query) then
      let p1 := { p with diffSettingCount := p.diffSettingCount + 1 }
      match env.resetResult with
      | Except.ok _ => (some { r with setting := none }, p1)
      | Except.error _ => (none, { p1 with active := p1.active - 1 })
    else (some r, p)
  | none => (none, p)

/-- The unwrap phase shared by both paths: an empty slot triggers the factory;
on failure one empty wrapper is pushed back into the plain channel and the
error is returned, on success `active` is incremented. -/
def unwrapStep (env : GetEnv) (w : Option Resource) (p : ResourcePool) :
    Except Nat Resource × ResourcePool :=
  match w with
  | some r => (Except.ok r, p)
  | none =>
    match env.factory with
    | Except.ok r => (Except.ok r, { p with active := p.active + 1 })
    | Except.error e => (Except.error e, { p with resources := p.resources ++ [none] })

/-- The final accounting of a successful acquisition: decrement `available`
(counting an exhaustion when it drops to 0 or below) and increment `inUse`. -/
def finishGet (r : Resource) (p : ResourcePool) : GetResult × ResourcePool :=
  let p1 := { p with available := p.available - 1 }
  let p2 := if p1.available ≤ 0 then { p1 with exhausted := p1.exhausted + 1 } else p1
  (GetResult.ok r, { p2 with inUse := p2.inUse + 1 })

/-- Reset + unwrap + accounting for the plain path. -/
def getFinish (env : GetEnv) (w : Option Resource) (p : ResourcePool) :
    GetResult × ResourcePool :=
  let wp := resetStepPlain env w p
  match unwrapStep env wp.1 wp.2 with
  | (Except.error e, q) => (GetResult.err (GetErr.factoryErr e), q)
  | (Except.ok r, q) => finishGet r q

/-- `ResourcePool.get` (the plain, no-settings path). -/
def ResourcePool.get (env : GetEnv) (p0 : ResourcePool) : GetResult × ResourcePool :=
  let p := { p0 with getCount := p0.getCount + 1 }
  match p.fetchPlainFirst with
  | FetchR.chanClosed => (GetResult.err GetErr.closedErr, p)
  | FetchR.wouldBlock =>
    if env.ctxCancelledDuringWait then (GetResult.err GetErr.timeout, p)
    else (GetResult.blocked, p)
  | FetchR.got w q => getFinish env w q

/-- The apply phase of the settings path: a resource with no setting applied
gets `ApplySetting`; on failure the wrapper (resource included) is pushed back
into the plain channel and the error is returned. -/
def applySettingStep (s : Setting) (env : GetEnv) (r : Resource) (p : ResourcePool) :
    GetResult × ResourcePool :=
  if !r.IsSettingApplied then
    match env.applyResult with
    | Except.ok _ => finishGet { r with setting := some s.query } p
    | Except.error e =>
      (GetResult.err (GetErr.applyErr e), { p with resources := p.resources ++ [some r] })
  else finishGet r p

/-- Diff-reset + unwrap + apply + accounting for the settings path. -/
def getSettingsFinish (s : Setting) (env : GetEnv) (w : Option Resource) (p : ResourcePool) :
    GetResult × ResourcePool :=
  let wp := diffSettingStep s env w p
  match unwrapStep env wp.1 wp.2 with
  | (Except.error e, q) => (GetResult.err (GetErr.factoryErr e), q)
  | (Except.ok r, q) => applySettingStep s env r q

/-- `ResourcePool.getWithSettings`. -/
def ResourcePool.getWithSettings (s : Setting) (env : GetEnv) (p0 : ResourcePool) :
    GetResult × ResourcePool :=
  let p := { p0 with getSettingCount := p0.getSettingCount + 1 }
  match p.fetchSettingFirst with
  | FetchR.chanClosed => (GetResult.err GetErr.closedErr, p)
  | FetchR.wouldBlock =>
    if env.ctxCancelledDuringWait then (GetResult.err GetErr.timeout, p)
    else (GetResult.blocked, p)
  | FetchR.got w q => getSettingsFinish s env w q

/-- `ResourcePool.Get`: an already-expired context fails fast with
`ErrCtxTimeout` before touching the pool; a nil/empty setting dispatches to
the plain path, otherwise to the settings path. -/
def ResourcePool.Get (ctxExpired : Bool) (setting : Option Setting) (env : GetEnv)
    (p : ResourcePool) : GetResult × ResourcePool :=
  if ctxExpired then (GetResult.err GetErr.ctxTimeout, p)
  else
    match setting with
    | none => p.get env
    | some s => if s.query = "" then p.get env else p.getWithSettings s env

/-- Environment of one `Put` call: whether `Expired(extendedMaxLifetime())`
reports true for the returned resource, and the outcome of the factory when
`reopenResource` runs. -/
structure PutEnv where
  expired : Bool
  factory : Except Nat Resource
deriving Repr

/-- Outcome of `Put`: the updated pool, or the programming-error panic raised
when the destination channel is full. -/
inductive PutResult
  | ok (p : ResourcePool)
  | panicked (msg : String)
deriving DecidableEq, Repr

/-- `ResourcePool.reopenResource`: recreate a resource in place; on factory
failure the slot stays empty and `active` is decremented. -/
def ResourcePool.reopenResource (env : PutEnv) (p : ResourcePool) :
    Option Resource × ResourcePool :=
  match env.factory with
  | Except.ok r => (some r, p)
  | Except.error _ => (none, { p with active := p.active - 1 })

/-- `ResourcePool.Put`.  `none` means "discard and recreate".  An expired
resource is closed and recreated.  The wrapper goes to `settingResources`
only when the returned resource still has a setting applied and was not
recreated; a send on a full channel is the programming-error panic. -/
def ResourcePool.Put (res : Option Resource) (env : PutEnv) (p : ResourcePool) : PutResult :=
  let hasSettings :=
    match res with
    | some r => r.IsSettingApplied
    | none => false
  let step1 : Option Resource × ResourcePool :=
    match res with
    | some r =>
      if env.expired then (none, { p with maxLifetimeClosed := p.maxLifetimeClosed + 1 })
      else (some r, p)
    | none => (none, p)
  let step2 : Option Resource × Bool × ResourcePool :=
    match step1.1 with
    | none =>
      let wq := step1.2.reopenResource env
      (wq.1, true, wq.2)
    | some r => (some r, false, step1.2)
  let w := step2.1
  let recreated := step2.2.1
  let p2 := step2.2.2
  if !hasSettings || recreated then
    if p2.resources.length < p2.maxCap then
      PutResult.ok
        { p2 with
          resources := p2.resources ++ [w]
          inUse := p2.inUse - 1
          available := p2.available + 1 }
    else PutResult.panicked ("attempt to Put into a full ResourcePool")
  else
    if p2.settingResources.length < p2.maxCap then
      PutResult.ok
        { p2 with
          settingResources := p2.settingResources ++ [w]
          inUse := p2.inUse - 1
          available := p2.available + 1 }
    else PutResult.panicked ("attempt to Put into a full ResourcePool")

/-- Whether a `Put` returned normally (no panic). -/
def PutResult.isOk : PutResult → Bool
  | PutResult.ok _ => true
  | PutResult.panicked _ => false

/-- The pool returned by a normal `Put` (`dflt` when it panicked). -/
def PutResult.getOk : PutResult → ResourcePool → ResourcePool
  | PutResult.ok q, _ => q
  | PutResult.panicked _, dflt => dflt

/-- Outcome of `SetCapacity`: the returned error (if any) with the updated
pool, or a shrink blocked waiting for outstanding resources to be returned. -/
inductive SetCapResult
  | done (err : Option String) (p : ResourcePool)
  | wouldBlock
deriving DecidableEq, Repr

/-- One iteration of the shrink loop: a received live resource is closed and
`active` decremented; `available` is decremented either way. -/
def dropWrapper (w : Option Resource) (p : ResourcePool) : ResourcePool :=
  match w with
  | some _ => { p with active := p.active - 1, available := p.available - 1 }
  | none => { p with available := p.available - 1 }

/-- The shrink loop of `SetCapacity`: pull and drop wrappers from either
channel; `none` when not enough wrappers are queued (the Go loop would block
waiting for `Put`s). -/
def ResourcePool.shrinkLoop : Nat → ResourcePool → Option ResourcePool
  | 0, p => some p
  | n + 1, p =>
    match p.resources with
    | w :: rest => ResourcePool.shrinkLoop n (dropWrapper w { p with resources := rest })
    | [] =>
      match p.settingResources with
      | w :: rest =>
        ResourcePool.shrinkLoop n (dropWrapper w { p with settingResources := rest })
      | [] => none

/-- The grow loop of `SetCapacity`: install empty wrapper slots. -/
def ResourcePool.growLoop : Nat → ResourcePool → ResourcePool
  | 0, p => p
  | n + 1, p =>
    ResourcePool.growLoop n
      { p with resources := p.resources ++ [none], available := p.available + 1 }

/-- `ResourcePool.SetCapacity`.  Out-of-range capacities are a pure
validation error.  Growing from a closed pool (old capacity 0) first
recreates both channels.  `SetCapacity(0)` closes both channels after the
shrink has drained them. -/
def ResourcePool.SetCapacity (n : Int) (p : ResourcePool) : SetCapResult :=
  if n < 0 ∨ (p.maxCap : Int) < n then
    SetCapResult.done (some ("capacity is out of range")) p
  else
    let oldcap := p.capacity
    let p1 :=
      if oldcap = 0 ∧ 0 < n then
        { p with resources := [], settingResources := [], closed := false }
      else p
    if oldcap = n then SetCapResult.done none p1
    else
      let p2 := { p1 with capacity := n }
      let shrunk : Option ResourcePool :=
        if n < oldcap then ResourcePool.shrinkLoop (oldcap - n).toNat p2
        else some (ResourcePool.growLoop (n - oldcap).toNat p2)
      match shrunk with
      | none => SetCapResult.wouldBlock
      | some p3 =>
        SetCapResult.done none (if n = 0 then { p3 with closed := true } else p3)

/-- Total number of wrapper slots currently queued in both channels. -/
def slots (p : ResourcePool) : Nat :=
  p.resources.length + p.settingResources.length

/-- Number of live (non-nil) resources in a channel. -/
def liveCount (l : List (Option Resource)) : Nat :=
  (l.filter Option.isSome).length

/-- Number of live (non-nil) resources queued in both channels. -/
def livePool (p : ResourcePool) : Nat :=
  liveCount p.resources + liveCount p.settingResources

/-- The pool invariant maintained by `Get`/`Put` sequences on a pool of fixed
capacity `c` and maximum capacity `m`: the gauges satisfy
`available + inUse = capacity`, the queued slots and the checked-out
resources partition the capacity, and `active` counts exactly the live
resources (queued or checked out). -/
def PoolInv (c m : Nat) (p : ResourcePool) : Prop :=
  p.capacity = (c : Int) ∧
  p.maxCap = m ∧
  c ≤ m ∧
  p.closed = false ∧
  0 ≤ p.inUse ∧
  (slots p : Int) + p.inUse = (c : Int) ∧
  p.available + p.inUse = (c : Int) ∧
  p.active = (livePool p : Int) + p.inUse

/-- One completed pool operation: a `Get` call (any path, any environment,
including calls with an expired or cancelled context), or a `Put` matching an
outstanding `Get` (`1 ≤ inUse`) that returns normally. -/
inductive PoolStep : ResourcePool → ResourcePool → Prop
  | getOp (ctxExpired : Bool) (setting : Option Setting) (env : GetEnv) (p : ResourcePool) :
      PoolStep p (ResourcePool.Get ctxExpired setting env p).2
  | putOp (res : Option Resource) (env : PutEnv) (p q : ResourcePool) :
      1 ≤ p.inUse → ResourcePool.Put res env p = PutResult.ok q → PoolStep p q

end Pools

namespace Tabletserver

/-- A vterrors error: a vtrpc code plus a message. -/
structure VtError where
  code : Vtrpc.Code
  msg : String
deriving DecidableEq, Repr

/-- A `mysql.SQLError`: error number, SQL state, and the raw MySQL message. -/
structure SQLErr where
  num : Int
  sqlState : String
  message : String
deriving DecidableEq, Repr

/-- An error reaching `convertAndLogError`: either a `*mysql.SQLError` or any
other error (whose vtrpc code `vterrors.Code` extracts). -/
inductive TabletErr
  | sqlErr (e : SQLErr)
  | vtErr (e : VtError)
deriving DecidableEq, Repr

/-- Whether `needle` occurs as a prefix of `hay` (character lists). -/
def charsPrefOf : List Char → List Char → Bool
  | [], _ => true
  | _ :: _, [] => false
  | a :: as, b :: bs => a == b && charsPrefOf as bs

/-- Whether `needle` occurs as a contiguous sublist of `hay`. -/
def charsSubOf : List Char → List Char → Bool
  | needle, [] => needle.isEmpty
  | needle, b :: bs => charsPrefOf needle (b :: bs) || charsSubOf needle bs

/-- `strings.Contains hay needle`. -/
def strContains (hay needle : String) : Bool :=
  charsSubOf needle.toList hay.toList

end Tabletserver

namespace Mysql

/-!
The MySQL error-number constants referenced by `convertErrorCode`.  The
constants live in the repository's `go/mysql` package, which is not among the
provided sources; the values below are the standard MySQL server/client error
numbers those constants name.
-/

def ERNotSupportedYet : Int := 1235
def ERDiskFull : Int := 1021
def EROutOfMemory : Int := 1037
def EROutOfSortMemory : Int := 1038
def ERConCount : Int := 1040
def EROutOfResources : Int := 1041
def ERRecordFileFull : Int := 1114
def ERHostIsBlocked : Int := 1129
def ERCantCreateThread : Int := 1135
def ERTooManyDelayedThreads : Int := 1151
def ERNetPacketTooLarge : Int := 1153
def ERTooManyUserConnections : Int := 1203
def ERLockTableFull : Int := 1206
def ERUserLimitReached : Int := 1226
def ERLockWaitTimeout : Int := 1205
def CRServerGone : Int := 2006
def ERServerShutdown : Int := 1053
def ERServerIsntAvailable : Int := 3168
def CRConnectionError : Int := 2002
def CRConnHostError : Int := 2003
def ERFormNotFound : Int := 1029
def ERKeyNotFound : Int := 1032
def ERBadFieldError : Int := 1054
def ERNoSuchThread : Int := 1094
def ERUnknownTable : Int := 1109
def ERCantFindUDF : Int := 1122
def ERNonExistingGrant : Int := 1141
def ERNoSuchTable : Int := 1146
def ERNonExistingTableGrant : Int := 1147
def ERKeyDoesNotExist : Int := 1176
def ERDBAccessDenied : Int := 1044
def ERAccessDeniedError : Int := 1045
def ERKillDenied : Int := 1095
def ERNoPermissionToCreateUsers : Int := 1211
def ERNoDb : Int := 1046
def ERNoSuchIndex : Int := 1082
def ERCantDropFieldOrKey : Int := 1091
def ERTableNotLockedForWrite : Int := 1099
def ERTableNotLocked : Int := 1100
def ERTooBigSelect : Int := 1104
def ERNotAllowedCommand : Int := 1148
def ERTooLongString : Int := 1162
def ERDelayedInsertTableLocked : Int := 1165
def ERDupUnique : Int := 1169
def ERRequiresPrimaryKey : Int := 1173
def ERCantDoThisDuringAnTransaction : Int := 1179
def ERReadOnlyTransaction : Int := 1207
def ERCannotAddForeign : Int := 1215
def ERNoReferencedRow : Int := 1216
def ERRowIsReferenced : Int := 1217
def ERCantUpdateWithReadLock : Int := 1223
def ERNoDefault : Int := 1230
def EROperandColumns : Int := 1241
def ERSubqueryNo1Row : Int := 1242
def ERNonUpdateableTable : Int := 1288
def ERFeatureDisabled : Int := 1289
def ERDuplicatedValueInType : Int := 1291
def ERRowIsReferenced2 : Int := 1451
def ErNoReferencedRow2 : Int := 1452
def ERWarnDataOutOfRange : Int := 1264
def EROptionPreventsStatement : Int := 1290
def ERTableExists : Int := 1050
def ERDupEntry : Int := 1062
def ERFileExists : Int := 1086
def ERUDFExists : Int := 1125
def ERGotSignal : Int := 1078
def ERForcingClose : Int := 1080
def ERAbortingConnection : Int := 1152
def ERLockDeadlock : Int := 1213
def ERUnknownComError : Int := 1047
def ERBadNullError : Int := 1048
def ERBadDb : Int := 1049
def ERBadTable : Int := 1051
def ERNonUniq : Int := 1052
def ERWrongFieldWithGroup : Int := 1055
def ERWrongGroupField : Int := 1056
def ERWrongSumSelect : Int := 1057
def ERWrongValueCount : Int := 1058
def ERTooLongIdent : Int := 1059
def ERDupFieldName : Int := 1060
def ERDupKeyName : Int := 1061
def ERWrongFieldSpec : Int := 1063
def ERParseError : Int := 1064
def EREmptyQuery : Int := 1065
def ERNonUniqTable : Int := 1066
def ERInvalidDefault : Int := 1067
def ERMultiplePriKey : Int := 1068
def ERTooManyKeys : Int := 1069
def ERTooManyKeyParts : Int := 1070
def ERTooLongKey : Int := 1071
def ERKeyColumnDoesNotExist : Int := 1072
def ERBlobUsedAsKey : Int := 1073
def ERTooBigFieldLength : Int := 1074
def ERWrongAutoKey : Int := 1075
def ERWrongFieldTerminators : Int := 1083
def ERBlobsAndNoTerminated : Int := 1084
def ERTextFileNotReadable : Int := 1085
def ERWrongSubKey : Int := 1089
def ERCantRemoveAllFields : Int := 1090
def ERUpdateTableUsed : Int := 1093
def ERNoTablesUsed : Int := 1096
def ERTooBigSet : Int := 1097
def ERBlobCantHaveDefault : Int := 1101
def ERWrongDbName : Int := 1102
def ERWrongTableName : Int := 1103
def ERUnknownProcedure : Int := 1106
def ERWrongParamCountToProcedure : Int := 1107
def ERWrongParametersToProcedure : Int := 1108
def ERFieldSpecifiedTwice : Int := 1110
def ERInvalidGroupFuncUse : Int := 1111
def ERTableMustHaveColumns : Int := 1113
def ERUnknownCharacterSet : Int := 1115
def ERTooManyTables : Int := 1116
def ERTooManyFields : Int := 1117
def ERTooBigRowSize : Int := 1118
def ERWrongOuterJoin : Int := 1120
def ERNullColumnInIndex : Int := 1121
def ERFunctionNotDefined : Int := 1128
def ERWrongValueCountOnRow : Int := 1136
def ERInvalidUseOfNull : Int := 1138
def ERRegexpError : Int := 1139
def ERMixOfGroupFuncAndFields : Int := 1140
def ERIllegalGrantForTable : Int := 1144
def ERSyntaxError : Int := 1149
def ERWrongColumnName : Int := 1166
def ERWrongKeyColumn : Int := 1167
def ERBlobKeyWithoutLength : Int := 1170
def ERPrimaryCantHaveNull : Int := 1171
def ERTooManyRows : Int := 1172
def ERUnknownSystemVariable : Int := 1193
def ERSetConstantsOnly : Int := 1204
def ERWrongArguments : Int := 1210
def ERWrongUsage : Int := 1221
def ERWrongNumberOfColumnsInSelect : Int := 1222
def ERDupArgument : Int := 1225
def ERLocalVariable : Int := 1228
def ERGlobalVariable : Int := 1229
def ERWrongValueForVar : Int := 1231
def ERWrongTypeForVar : Int := 1232
def ERVarCantBeRead : Int := 1233
def ERCantUseOptionHere : Int := 1234
def ERIncorrectGlobalLocalVar : Int := 1238
def ERWrongFKDef : Int := 1239
def ERKeyRefDoNotMatchTableRef : Int := 1240
def ERCyclicReference : Int := 1245
def ERCollationCharsetMismatch : Int := 1253
def ERCantAggregate2Collations : Int := 1267
def ERCantAggregate3Collations : Int := 1270
def ERCantAggregateNCollations : Int := 1271
def ERVariableIsNotStruct : Int := 1272
def ERUnknownCollation : Int := 1273
def ERWrongNameForIndex : Int := 1280
def ERWrongNameForCatalog : Int := 1281
def ERBadFTColumn : Int := 1283
def ERTruncatedWrongValue : Int := 1292
def ERTooMuchAutoTimestampCols : Int := 1293
def ERInvalidOnUpdate : Int := 1294
def ERUnknownTimeZone : Int := 1298
def ERInvalidCharacterString : Int := 1300
def ERIllegalReference : Int := 1247
def ERDerivedMustHaveAlias : Int := 1248
def ERTableNameNotAllowedHere : Int := 1250
def ERDataTooLong : Int := 1406
def ERDataOutOfRange : Int := 1690
def ERTruncatedWrongValueForField : Int := 1366
def ERIllegalValueForType : Int := 1367
def ERSpecifiedAccessDenied : Int := 1227
def CRServerLost : Int := 2013

end Mysql

namespace Tabletserver

/-- `vterrors.Code(err)`: errors created by vterrors carry their code; a bare
`*mysql.SQLError` (which does not implement the code interface) reports
UNKNOWN. -/
def vterrorsCode : TabletErr → Vtrpc.Code
  | TabletErr.vtErr e => e.code
  | TabletErr.sqlErr _ => Vtrpc.Code.UNKNOWN

/-- `convertErrorCode`: the fixed MySQL-errno to vtrpc status-code table.  A
non-SQL error keeps its vterrors code; an SQL error is classified by its
number, defaulting to the `vterrors.Code` value (UNKNOWN) when unlisted.
`ERSpecifiedAccessDenied` is demoted to FAILED_PRECONDITION when the error
text reports a failover in progress. -/
def convertErrorCode (err : TabletErr) : Vtrpc.Code :=
  match err with
  | TabletErr.vtErr _ => vterrorsCode err
  | TabletErr.sqlErr e =>
    let n := e.num
    if n = Mysql.ERNotSupportedYet then Vtrpc.Code.UNIMPLEMENTED
    else if n ∈ [Mysql.ERDiskFull, Mysql.EROutOfMemory, Mysql.EROutOfSortMemory,
        Mysql.ERConCount, Mysql.EROutOfResources, Mysql.ERRecordFileFull,
        Mysql.ERHostIsBlocked, Mysql.ERCantCreateThread, Mysql.ERTooManyDelayedThreads,
        Mysql.ERNetPacketTooLarge, Mysql.ERTooManyUserConnections, Mysql.ERLockTableFull,
        Mysql.ERUserLimitReached] then Vtrpc.Code.RESOURCE_EXHAUSTED
    else if n = Mysql.ERLockWaitTimeout then Vtrpc.Code.DEADLINE_EXCEEDED
    else if n ∈ [Mysql.CRServerGone, Mysql.ERServerShutdown, Mysql.ERServerIsntAvailable,
        Mysql.CRConnectionError, Mysql.CRConnHostError] then Vtrpc.Code.UNAVAILABLE
    else if n ∈ [Mysql.ERFormNotFound, Mysql.ERKeyNotFound, Mysql.ERBadFieldError,
        Mysql.ERNoSuchThread, Mysql.ERUnknownTable, Mysql.ERCantFindUDF,
        Mysql.ERNonExistingGrant, Mysql.ERNoSuchTable, Mysql.ERNonExistingTableGrant,
        Mysql.ERKeyDoesNotExist] then Vtrpc.Code.NOT_FOUND
    else if n ∈ [Mysql.ERDBAccessDenied, Mysql.ERAccessDeniedError, Mysql.ERKillDenied,
        Mysql.ERNoPermissionToCreateUsers] then Vtrpc.Code.PERMISSION_DENIED
    else if n ∈ [Mysql.ERNoDb, Mysql.ERNoSuchIndex, Mysql.ERCantDropFieldOrKey,
        Mysql.ERTableNotLockedForWrite, Mysql.ERTableNotLocked, Mysql.ERTooBigSelect,
        Mysql.ERNotAllowedCommand, Mysql.ERTooLongString, Mysql.ERDelayedInsertTableLocked,
        Mysql.ERDupUnique, Mysql.ERRequiresPrimaryKey,
        Mysql.ERCantDoThisDuringAnTransaction, Mysql.ERReadOnlyTransaction,
        Mysql.ERCannotAddForeign, Mysql.ERNoReferencedRow, Mysql.ERRowIsReferenced,
        Mysql.ERCantUpdateWithReadLock, Mysql.ERNoDefault, Mysql.EROperandColumns,
        Mysql.ERSubqueryNo1Row, Mysql.ERNonUpdateableTable, Mysql.ERFeatureDisabled,
        Mysql.ERDuplicatedValueInType, Mysql.ERRowIsReferenced2, Mysql.ErNoReferencedRow2,
        Mysql.ERWarnDataOutOfRange] then Vtrpc.Code.FAILED_PRECONDITION
    else if n = Mysql.EROptionPreventsStatement then Vtrpc.Code.CLUSTER_EVENT
    else if n ∈ [Mysql.ERTableExists, Mysql.ERDupEntry, Mysql.ERFileExists,
        Mysql.ERUDFExists] then Vtrpc.Code.ALREADY_EXISTS
    else if n ∈ [Mysql.ERGotSignal, Mysql.ERForcingClose, Mysql.ERAbortingConnection,
        Mysql.ERLockDeadlock] then Vtrpc.Code.ABORTED
    else if n ∈ [Mysql.ERUnknownComError, Mysql.ERBadNullError, Mysql.ERBadDb,
        Mysql.ERBadTable, Mysql.ERNonUniq, Mysql.ERWrongFieldWithGroup,
        Mysql.ERWrongGroupField, Mysql.ERWrongSumSelect, Mysql.ERWrongValueCount,
        Mysql.ERTooLongIdent, Mysql.ERDupFieldName, Mysql.ERDupKeyName,
        Mysql.ERWrongFieldSpec, Mysql.ERParseError, Mysql.EREmptyQuery,
        Mysql.ERNonUniqTable, Mysql.ERInvalidDefault, Mysql.ERMultiplePriKey,
        Mysql.ERTooManyKeys, Mysql.ERTooManyKeyParts, Mysql.ERTooLongKey,
        Mysql.ERKeyColumnDoesNotExist, Mysql.ERBlobUsedAsKey, Mysql.ERTooBigFieldLength,
        Mysql.ERWrongAutoKey, Mysql.ERWrongFieldTerminators, Mysql.ERBlobsAndNoTerminated,
        Mysql.ERTextFileNotReadable, Mysql.ERWrongSubKey, Mysql.ERCantRemoveAllFields,
        Mysql.ERUpdateTableUsed, Mysql.ERNoTablesUsed, Mysql.ERTooBigSet,
        Mysql.ERBlobCantHaveDefault, Mysql.ERWrongDbName, Mysql.ERWrongTableName,
        Mysql.ERUnknownProcedure, Mysql.ERWrongParamCountToProcedure,
        Mysql.ERWrongParametersToProcedure, Mysql.ERFieldSpecifiedTwice,
        Mysql.ERInvalidGroupFuncUse, Mysql.ERTableMustHaveColumns,
        Mysql.ERUnknownCharacterSet, Mysql.ERTooManyTables, Mysql.ERTooManyFields,
        Mysql.ERTooBigRowSize, Mysql.ERWrongOuterJoin, Mysql.ERNullColumnInIndex,
        Mysql.ERFunctionNotDefined, Mysql.ERWrongValueCountOnRow, Mysql.ERInvalidUseOfNull,
        Mysql.ERRegexpError, Mysql.ERMixOfGroupFuncAndFields, Mysql.ERIllegalGrantForTable,
        Mysql.ERSyntaxError, Mysql.ERWrongColumnName, Mysql.ERWrongKeyColumn,
        Mysql.ERBlobKeyWithoutLength, Mysql.ERPrimaryCantHaveNull, Mysql.ERTooManyRows,
        Mysql.ERUnknownSystemVariable, Mysql.ERSetConstantsOnly, Mysql.ERWrongArguments,
        Mysql.ERWrongUsage, Mysql.ERWrongNumberOfColumnsInSelect, Mysql.ERDupArgument,
        Mysql.ERLocalVariable, Mysql.ERGlobalVariable, Mysql.ERWrongValueForVar,
        Mysql.ERWrongTypeForVar, Mysql.ERVarCantBeRead, Mysql.ERCantUseOptionHere,
        Mysql.ERIncorrectGlobalLocalVar, Mysql.ERWrongFKDef,
        Mysql.ERKeyRefDoNotMatchTableRef, Mysql.ERCyclicReference,
        Mysql.ERCollationCharsetMismatch, Mysql.ERCantAggregate2Collations,
        Mysql.ERCantAggregate3Collations, Mysql.ERCantAggregateNCollations,
        Mysql.ERVariableIsNotStruct, Mysql.ERUnknownCollation, Mysql.ERWrongNameForIndex,
        Mysql.ERWrongNameForCatalog, Mysql.ERBadFTColumn, Mysql.ERTruncatedWrongValue,
        Mysql.ERTooMuchAutoTimestampCols, Mysql.ERInvalidOnUpdate, Mysql.ERUnknownTimeZone,
        Mysql.ERInvalidCharacterString, Mysql.ERIllegalReference,
        Mysql.ERDerivedMustHaveAlias, Mysql.ERTableNameNotAllowedHere, Mysql.ERDataTooLong,
        Mysql.ERDataOutOfRange, Mysql.ERTruncatedWrongValueForField,
        Mysql.ERIllegalValueForType] then Vtrpc.Code.INVALID_ARGUMENT
    else if n = Mysql.ERSpecifiedAccessDenied then
      -- also utilized for the internal failover error code
      if strContains e.message ("failover in progress") then Vtrpc.Code.FAILED_PRECONDITION
      else Vtrpc.Code.PERMISSION_DENIED
    else if n = Mysql.CRServerLost then Vtrpc.Code.CANCELED
    else vterrorsCode err

/-- `queryAsString`: readable rendering of the query; bind variables are
included only when `sanitize` is false (the source sorts the map keys, so the
association list is taken in key order).  Nonempty sanitized bind variables
render as `[REDACTED]`. -/
def queryAsString (sql : String) (bindVariables : List (String × String))
    (sanitize : Bool) : String :=
  let bvs :=
    if bindVariables.isEmpty then ""
    else if sanitize then "[REDACTED]"
    else String.join (bindVariables.map (fun kv => kv.1 ++ ": \"" ++ kv.2 ++ "\""))
  "Sql: \"" ++ sql ++ "\", BindVars: \x7b" ++ bvs ++ "\x7d"

/-- The client-visible error produced by `convertAndLogError` (log-side
output, which `SanitizeLogMessages` controls independently, is not modelled).
With `TerseErrors` on, an SQL error whose converted code is not
FAILED_PRECONDITION is rebuilt from errno/sqlstate with sanitized bind
variables, dropping the raw MySQL message; otherwise the raw message and the
bind variables are kept. -/
def convertAndLogError (terseErrors : Bool) (sql : String)
    (bindVariables : List (String × String)) (err : TabletErr) (callerID : String) :
    VtError :=
  let errCode := convertErrorCode err
  match err with
  | TabletErr.sqlErr e =>
    if terseErrors ∧ errCode ≠ Vtrpc.Code.FAILED_PRECONDITION then
      { code := errCode
        msg := "(errno " ++ toString e.num ++ ") (sqlstate " ++ e.sqlState ++ ")" ++
          callerID ++ ": " ++ queryAsString sql bindVariables terseErrors }
    else
      { code := errCode
        msg := e.message ++ " (errno " ++ toString e.num ++ ") (sqlstate " ++ e.sqlState ++
          ")" ++ callerID ++ ": " ++ queryAsString sql bindVariables false }
  | TabletErr.vtErr e => { code := errCode, msg := e.msg ++ callerID }

/-- The per-request log record, as far as `handlePanicAndSendLogStats` reads
and writes it.  `Method` is empty for no-op operations; `ErrorField` is
`logStats.Error`. -/
structure LogStats where
  Method : String
  ErrorField : Option VtError
deriving DecidableEq, Repr

/-- The observable outcome of the deferred
`handlePanicAndSendLogStats`: whether the process crashed (a panic escaped),
the updated log record, the `InternalErrors("Panic")` counter, and whether
`logStats.Send()` ran. -/
structure PanicOutcome where
  crashed : Bool
  logStats : Option LogStats
  internalErrorsPanic : Int
  statsSent : Bool
deriving DecidableEq, Repr

/-- `TabletServer.handlePanicAndSendLogStats`.  `panicVal` is the recovered
panic value (`none` when the closure returned normally); `stack` is the
captured stack trace (`tb.Stack(4)`); `queryStr` stands for
`queryAsString(sql, bindVariables, TerseErrors)`.  `recover()` intercepts
every panic, so the process never crashes; the panic is converted to an
UNKNOWN-code error whose message embeds the panic value and the stack, the
internal-error counter is bumped, and the log record is sent unless the
operation was a no-op (empty `Method`) or there is no record. -/
def handlePanicAndSendLogStats (panicVal : Option String) (stack : String)
    (queryStr : String) (ls : Option LogStats) (cnt : Int) : PanicOutcome :=
  let recovered : Option LogStats × Int :=
    match panicVal with
    | some x =>
      let errMessage :=
        "Uncaught panic for " ++ queryStr ++ ":\n" ++ x ++ "\n" ++ stack
      let terr : VtError := { code := Vtrpc.Code.UNKNOWN, msg := errMessage }
      let ls1 :=
        match ls with
        | some l => some { l with ErrorField := some terr }
        | none => none
      (ls1, cnt + 1)
    | none => (ls, cnt)
  let send :=
    match recovered.1 with
    | some l => l.Method != ""
    | none => false
  { crashed := false
    logStats := recovered.1
    internalErrorsPanic := recovered.2
    statsSent := send }

/-- Admission outcome of the transactionID/reservedID consistency check at
the top of `Execute`/`StreamExecute`: either the internal-bug rejection
(returned before `tsv.execute`/`tsv.streamExecute` runs) or fall-through into
execution. -/
inductive ExecAdmission
  | rejected (e : VtError)
  | proceed
deriving DecidableEq, Repr

/-- The internal-bug error returned on a transactionID/reservedID mismatch. -/
def txMismatchErr : VtError :=
  { code := Vtrpc.Code.INTERNAL
    msg := "[BUG] transactionID and reserveID must match if both are non-zero" }

/-- The guard at the top of `TabletServer.Execute`. -/
def executeTxCheck (transactionID reservedID : Int) : ExecAdmission :=
  if transactionID ≠ 0 ∧ reservedID ≠ 0 ∧ transactionID ≠ reservedID then
    ExecAdmission.rejected txMismatchErr
  else ExecAdmission.proceed

/-- The guard at the top of `TabletServer.StreamExecute`. -/
def streamExecuteTxCheck (transactionID reservedID : Int) : ExecAdmission :=
  if transactionID ≠ 0 ∧ reservedID ≠ 0 ∧ transactionID ≠ reservedID then
    ExecAdmission.rejected txMismatchErr
  else ExecAdmission.proceed

/-- The serving states of the state manager. -/
inductive ServingState
  | NotConnected
  | NotServing
  | Serving
deriving DecidableEq, Repr

/-- The fields of `stateManager` that determine the externally reported
servingness. -/
structure StateManager where
  state : ServingState
  wantState : ServingState
  lameduck : Bool
  replHealthy : Bool
deriving DecidableEq, Repr

/-- Modelled from the spec: the `stateManager` implementation
(`state_manager.go`) is not among the provided sources — only its unit test
(`state_manager_test.go`) and its callers are.  Spec §3: "Invariant:
`IsServingString()` returns SERVING only if `state == Serving && wantState ==
Serving && !lameduck`"; every other combination reports NOT_SERVING. -/
def StateManager.IsServingString (sm : StateManager) : String :=
  if sm.state = ServingState.Serving ∧ sm.wantState = ServingState.Serving ∧
      sm.lameduck = false then "SERVING"
  else "NOT_SERVING"

/-- Modelled from the spec: `EnterLameduck` forces the externally reported
health to NOT_SERVING while leaving internal behavior unaffected. -/
def StateManager.EnterLameduck (sm : StateManager) : StateManager :=
  { sm with lameduck := true }

/-- A duplicate-entry MySQL error (errno 1062, converted to ALREADY_EXISTS)
whose raw message carries PII. -/
def sqlErrDup : SQLErr :=
  { num := 1062, sqlState := "23000", message := "Duplicate entry secret-pii" }

/-- A no-database-selected MySQL error (errno 1046, converted to
FAILED_PRECONDITION). -/
def sqlErrNoDb : SQLErr :=
  { num := 1046, sqlState := "3D000", message := "No database selected" }

/-- The state-manager configuration exercised by
`TestStateManagerStateByName`: healthy replication, want Serving. -/
def smBase : StateManager :=
  { state := ServingState.NotConnected
    wantState := ServingState.Serving
    lameduck := false
    replHealthy := true }

/-- A serving state manager that has entered lameduck. -/
def smLame : StateManager :=
  StateManager.EnterLameduck { smBase with state := ServingState.Serving }

end Tabletserver

namespace Pools

/-- Concrete session setting used in the executable scenarios. -/
def settingA : Setting := NewSetting false ("set a") ("reset a")

/-- A second, distinct session setting. -/
def settingB : Setting := NewSetting false ("set b") ("reset b")

/-- A fresh resource as produced by the factory. -/
def resA : Resource := { rid := 7, setting := none }

/-- `resA` after `ApplySetting(settingA)`. -/
def resAWithA : Resource := { rid := 7, setting := some settingA.query }

/-- Environment where every external call succeeds and the factory builds
`resA`. -/
def envOkA : GetEnv :=
  { ctxCancelledDuringWait := false
    resetResult := Except.ok ()
    factory := Except.ok resA
    applyResult := Except.ok () }

/-- Environment whose factory fails with error 42. -/
def envFactoryFail : GetEnv :=
  { ctxCancelledDuringWait := false
    resetResult := Except.ok ()
    factory := Except.error 42
    applyResult := Except.ok () }

/-- Environment where the context is cancelled while the caller waits. -/
def envCancelled : GetEnv :=
  { ctxCancelledDuringWait := true
    resetResult := Except.ok ()
    factory := Except.ok resA
    applyResult := Except.ok () }

/-- `Put` environment: resource not expired (factory present for the
recreate path). -/
def putEnvFresh : PutEnv := { expired := false, factory := Except.ok resA }

/-- The pool built by `NewResourcePool(capacity 1, maxCap 1)`. -/
def pool11 : ResourcePool :=
  { resources := [none]
    settingResources := []
    maxCap := 1
    capacity := 1
    available := 1
    active := 0
    inUse := 0
    closed := false
    getCount := 0
    getSettingCount := 0
    diffSettingCount := 0
    resetSettingCount := 0
    waitCount := 0
    exhausted := 0
    maxLifetimeClosed := 0 }

/-- The pool built by `NewResourcePool(capacity 1, maxCap 2)`. -/
def pool12 : ResourcePool :=
  { pool11 with maxCap := 2 }

/-- `pool11` after `getWithSettings(settingA)` under `envOkA` (the resource
`resAWithA` is checked out). -/
def poolMidA : ResourcePool :=
  (ResourcePool.getWithSettings settingA envOkA pool11).2

/-- `poolMidA` after `Put(resAWithA)`: the resource, setting still applied,
is queued in `settingResources`. -/
def poolPutA : ResourcePool :=
  match ResourcePool.Put (some resAWithA) putEnvFresh poolMidA with
  | PutResult.ok q => q
  | PutResult.panicked _ => pool11

/-- `pool11` after a plain `get` under `envOkA`: both channels empty, one
resource outstanding. -/
def poolBusy : ResourcePool :=
  (ResourcePool.get envOkA pool11).2

/-- `pool11` after `SetCapacity(0)`: the closed pool. -/
def poolClosed : ResourcePool :=
  match ResourcePool.SetCapacity 0 pool11 with
  | SetCapResult.done _ q => q
  | SetCapResult.wouldBlock => pool11

end Pools

namespace Pools

theorem liveCount_nil : liveCount [] = 0 := rfl

theorem liveCount_cons (w : Option Resource) (l : List (Option Resource)) :
    liveCount (w :: l) = (if w.isSome then 1 else 0) + liveCount l := by
  cases w <;> simp [liveCount, List.filter_cons] <;> omega

theorem liveCount_append (l1 l2 : List (Option Resource)) :
    liveCount (l1 ++ l2) = liveCount l1 + liveCount l2 := by
  simp [liveCount, List.filter_append]

theorem finishGet_fields (r : Resource) (p : ResourcePool) :
    (finishGet r p).2.resources = p.resources ∧
    (finishGet r p).2.settingResources = p.settingResources ∧
    (finishGet r p).2.maxCap = p.maxCap ∧
    (finishGet r p).2.capacity = p.capacity ∧
    (finishGet r p).2.available = p.available - 1 ∧
    (finishGet r p).2.active = p.active ∧
    (finishGet r p).2.inUse = p.inUse + 1 ∧
    (finishGet r p).2.closed = p.closed := by
  unfold finishGet
  dsimp only
  refine ⟨?_, ?_, ?_, ?_, ?_, ?_, ?_, ?_⟩ <;> (split <;> rfl)

theorem finishGet_fst (r : Resource) (p : ResourcePool) :
    (finishGet r p).1 = GetResult.ok r := by
  unfold finishGet
  dsimp only

theorem finishGet_inv (c m : Nat) (r : Resource) (p : ResourcePool)
    (hcap : p.capacity = (c : Int)) (hmax : p.maxCap = m) (hcm : c ≤ m)
    (hcl : p.closed = false) (hin : 0 ≤ p.inUse)
    (hslots : (slots p : Int) + 1 + p.inUse = (c : Int))
    (havail : p.available + p.inUse = (c : Int))
    (hact : p.active = (livePool p : Int) + 1 + p.inUse) :
    PoolInv c m (finishGet r p).2 := by
  obtain ⟨h1, h2, h3, h4, h5, h6, h7, h8⟩ := finishGet_fields r p
  unfold PoolInv slots livePool at *
  rw [h1, h2, h3, h4, h5, h6, h7, h8]
  exact ⟨hcap, hmax, hcm, hcl, by omega, by omega, by omega, by omega⟩

theorem getFinish_inv (c m : Nat) (env : GetEnv) (w : Option Resource) (p : ResourcePool)
    (hcap : p.capacity = (c : Int)) (hmax : p.maxCap = m) (hcm : c ≤ m)
    (hcl : p.closed = false) (hin : 0 ≤ p.inUse)
    (hslots : (slots p : Int) + 1 + p.inUse = (c : Int))
    (havail : p.available + p.inUse = (c : Int))
    (hact : p.active = (livePool p : Int) + (if w.isSome then 1 else 0) + p.inUse) :
    PoolInv c m (getFinish env w p).2 := by
  unfold getFinish resetStepPlain unwrapStep
  cases w with
  | none =>
    cases hf : env.factory with
    | error e =>
      simp only [hf]
      refine ⟨hcap, hmax, hcm, hcl, hin, ?_, havail, ?_⟩ <;>
        simp_all [slots, livePool, liveCount_append, liveCount_cons, liveCount_nil] <;>
        omega
    | ok r =>
      simp only [hf]
      apply finishGet_inv <;> simp_all [slots, livePool] <;> omega
  | some r =>
    by_cases hs : r.IsSettingApplied
    · simp only [hs, if_true]
      cases hrr : env.resetResult with
      | ok u =>
        apply finishGet_inv <;> simp_all [slots, livePool] <;> omega
      | error e =>
        cases hf : env.factory with
        | error e2 =>
          refine ⟨hcap, hmax, hcm, hcl, hin, ?_, havail, ?_⟩ <;>
            simp_all [slots, livePool, liveCount_append, liveCount_cons, liveCount_nil] <;>
            omega
        | ok r2 =>
          apply finishGet_inv <;> simp_all [slots, livePool] <;> omega
    · simp only [hs, if_false]
      apply finishGet_inv <;> simp_all [slots, livePool] <;> omega

end Pools

namespace Pools

theorem applySettingStep_inv (c m : Nat) (s : Setting) (env : GetEnv) (r : Resource)
    (p : ResourcePool)
    (hcap : p.capacity = (c : Int)) (hmax : p.maxCap = m) (hcm : c ≤ m)
    (hcl : p.closed = false) (hin : 0 ≤ p.inUse)
    (hslots : (slots p : Int) + 1 + p.inUse = (c : Int))
    (havail : p.available + p.inUse = (c : Int))
    (hact : p.active = (livePool p : Int) + 1 + p.inUse) :
    PoolInv c m (applySettingStep s env r p).2 := by
  unfold applySettingStep
  by_cases hs : r.IsSettingApplied
  · simp only [hs, Bool.not_true, if_false]
    exact finishGet_inv c m r p hcap hmax hcm hcl hin hslots havail hact
  · simp only [hs, Bool.not_false, if_true]
    cases ha : env.applyResult with
    | ok u =>
      apply finishGet_inv <;> simp_all [slots, livePool] <;> omega
    | error e =>
      refine ⟨hcap, hmax, hcm, hcl, hin, ?_, havail, ?_⟩ <;>
        simp_all [slots, livePool, liveCount_append, liveCount_cons, liveCount_nil] <;>
        omega

theorem getSettingsFinish_inv (c m : Nat) (s : Setting) (env : GetEnv) (w : Option Resource)
    (p : ResourcePool)
    (hcap : p.capacity = (c : Int)) (hmax : p.maxCap = m) (hcm : c ≤ m)
    (hcl : p.closed = false) (hin : 0 ≤ p.inUse)
    (hslots : (slots p : Int) + 1 + p.inUse = (c : Int))
    (havail : p.available + p.inUse = (c : Int))
    (hact : p.active = (livePool p : Int) + (if w.isSome then 1 else 0) + p.inUse) :
    PoolInv c m (getSettingsFinish s env w p).2 := by
  unfold getSettingsFinish diffSettingStep unwrapStep
  cases w with
  | none =>
    cases hf : env.factory with
    | error e =>
      simp only [hf]
      refine ⟨hcap, hmax, hcm, hcl, hin, ?_, havail, ?_⟩ <;>
        simp_all [slots, livePool, liveCount_append, liveCount_cons, liveCount_nil] <;>
        omega
    | ok r =>
      simp only [hf]
      apply applySettingStep_inv <;> simp_all [slots, livePool] <;> omega
  | some r =>
    by_cases hs : r.IsSettingApplied && !(r.IsSameSetting s.query)
    · simp only [hs, if_true]
      cases hrr : env.resetResult with
      | ok u =>
        apply applySettingStep_inv <;> simp_all [slots, livePool] <;> omega
      | error e =>
        cases hf : env.factory with
        | error e2 =>
          refine ⟨hcap, hmax, hcm, hcl, hin, ?_, havail, ?_⟩ <;>
            simp_all [slots, livePool, liveCount_append, liveCount_cons, liveCount_nil] <;>
            omega
        | ok r2 =>
          apply applySettingStep_inv <;> simp_all [slots, livePool] <;> omega
    · simp only [hs, if_false]
      apply applySettingStep_inv <;> simp_all [slots, livePool] <;> omega

theorem get_inv (c m : Nat) (env : GetEnv) (p : ResourcePool) (h : PoolInv c m p) :
    PoolInv c m (ResourcePool.get env p).2 := by
  obtain ⟨hcap, hmax, hcm, hcl, hin, hslots, havail, hact⟩ := h
  unfold ResourcePool.get ResourcePool.fetchPlainFirst
  dsimp only
  cases hres : p.resources with
  | cons w rest =>
    apply getFinish_inv <;> cases w <;>
      simp_all [slots, livePool, liveCount_cons, liveCount_nil] <;> omega
  | nil =>
    cases hsr : p.settingResources with
    | cons w rest =>
      apply getFinish_inv <;> cases w <;>
        simp_all [slots, livePool, liveCount_cons, liveCount_nil] <;> omega
    | nil =>
      rw [hcl]
      dsimp only
      by_cases hcw : env.ctxCancelledDuringWait <;>
        simp only [hcw, if_true, if_false, Bool.false_eq_true] <;>
        refine ⟨?_, ?_, hcm, ?_, ?_, ?_, ?_, ?_⟩ <;>
          simp_all [slots, livePool, liveCount_nil] <;> omega

theorem getWithSettings_inv (c m : Nat) (s : Setting) (env : GetEnv) (p : ResourcePool)
    (h : PoolInv c m p) :
    PoolInv c m (ResourcePool.getWithSettings s env p).2 := by
  obtain ⟨hcap, hmax, hcm, hcl, hin, hslots, havail, hact⟩ := h
  unfold ResourcePool.getWithSettings ResourcePool.fetchSettingFirst
  dsimp only
  cases hsr : p.settingResources with
  | cons w rest =>
    apply getSettingsFinish_inv <;> cases w <;>
      simp_all [slots, livePool, liveCount_cons, liveCount_nil] <;> omega
  | nil =>
    cases hres : p.resources with
    | cons w rest =>
      apply getSettingsFinish_inv <;> cases w <;>
        simp_all [slots, livePool, liveCount_cons, liveCount_nil] <;> omega
    | nil =>
      rw [hcl]
      dsimp only
      by_cases hcw : env.ctxCancelledDuringWait <;>
        simp only [hcw, if_true, if_false, Bool.false_eq_true] <;>
        refine ⟨?_, ?_, hcm, ?_, ?_, ?_, ?_, ?_⟩ <;>
          simp_all [slots, livePool, liveCount_nil] <;> omega

theorem Get_inv (c m : Nat) (ctxExpired : Bool) (setting : Option Setting) (env : GetEnv)
    (p : ResourcePool) (h : PoolInv c m p) :
    PoolInv c m (ResourcePool.Get ctxExpired setting env p).2 := by
  unfold ResourcePool.Get
  cases ctxExpired with
  | true => exact h
  | false =>
    cases setting with
    | none => exact get_inv c m env p h
    | some s =>
      by_cases hq : s.query = ""
      · simpa [hq] using get_inv c m env p h
      · simpa [hq] using getWithSettings_inv c m s env p h

end Pools

namespace Pools

theorem Put_inv (c m : Nat) (res : Option Resource) (env : PutEnv) (p q : ResourcePool)
    (h : PoolInv c m p) (hin1 : 1 ≤ p.inUse)
    (hok : ResourcePool.Put res env p = PutResult.ok q) : PoolInv c m q := by
  obtain ⟨hcap, hmax, hcm, hcl, hin, hslots, havail, hact⟩ := h
  unfold ResourcePool.Put ResourcePool.reopenResource at hok
  cases res with
  | none =>
    cases hf : env.factory with
    | ok r =>
      simp [hf] at hok
      split at hok
      · cases hok
        refine ⟨?_, ?_, hcm, ?_, ?_, ?_, ?_, ?_⟩ <;>
          simp_all [slots, livePool, liveCount_append, liveCount_cons, liveCount_nil] <;>
          omega
      · simp at hok
    | error e =>
      simp [hf] at hok
      split at hok
      · cases hok
        refine ⟨?_, ?_, hcm, ?_, ?_, ?_, ?_, ?_⟩ <;>
          simp_all [slots, livePool, liveCount_append, liveCount_cons, liveCount_nil] <;>
          omega
      · simp at hok
  | some r =>
    by_cases he : env.expired
    · cases hf : env.factory with
      | ok r2 =>
        simp [he, hf] at hok
        split at hok
        · cases hok
          refine ⟨?_, ?_, hcm, ?_, ?_, ?_, ?_, ?_⟩ <;>
            simp_all [slots, livePool, liveCount_append, liveCount_cons, liveCount_nil] <;>
            omega
        · simp at hok
      | error e =>
        simp [he, hf] at hok
        split at hok
        · cases hok
          refine ⟨?_, ?_, hcm, ?_, ?_, ?_, ?_, ?_⟩ <;>
            simp_all [slots, livePool, liveCount_append, liveCount_cons, liveCount_nil] <;>
            omega
        · simp at hok
    · by_cases hs : r.IsSettingApplied
      · simp [he, hs] at hok
        split at hok
        · cases hok
          refine ⟨?_, ?_, hcm, ?_, ?_, ?_, ?_, ?_⟩ <;>
            simp_all [slots, livePool, liveCount_append, liveCount_cons, liveCount_nil] <;>
            omega
        · simp at hok
      · simp [he, hs] at hok
        split at hok
        · cases hok
          refine ⟨?_, ?_, hcm, ?_, ?_, ?_, ?_, ?_⟩ <;>
            simp_all [slots, livePool, liveCount_append, liveCount_cons, liveCount_nil] <;>
            omega
        · simp at hok

theorem poolStep_inv (c m : Nat) (p q : ResourcePool) (h : PoolInv c m p)
    (hs : PoolStep p q) : PoolInv c m q := by
  cases hs with
  | getOp ctxExpired setting env p => exact Get_inv c m ctxExpired setting env p h
  | putOp res env p q h1 h2 => exact Put_inv c m res env p q h h1 h2

theorem poolReach_inv (c m : Nat) (p q : ResourcePool) (h : PoolInv c m p)
    (hr : Relation.ReflTransGen PoolStep p q) : PoolInv c m q := by
  induction hr with
  | refl => exact h
  | tail hab hbc ih => exact poolStep_inv c m _ _ ih hbc

theorem liveCount_replicate_none (n : Nat) :
    liveCount (List.replicate n (none : Option Resource)) = 0 := by
  induction n with
  | zero => rfl
  | succ k ih => simpa [List.replicate_succ, liveCount_cons] using ih

theorem newResourcePool_inv (c m : Nat) (p : ResourcePool)
    (h : NewResourcePool c m = some p) : PoolInv c m p := by
  unfold NewResourcePool at h
  split at h
  · simp at h
  · next hc =>
    push_neg at hc
    obtain ⟨hc1, hc2, hc3⟩ := hc
    cases h
    refine ⟨rfl, rfl, by omega, rfl, by simp, ?_, ?_, ?_⟩ <;>
      simp [slots, livePool, liveCount_replicate_none, liveCount_nil]

end Pools

namespace Pools

/-- C1: for every sequence of completed `Get`/`Put` operations on a pool
built by `NewResourcePool` (each `Put` matching an outstanding `Get`, no
`SetCapacity` resize), the gauges satisfy `available + inUse = capacity`
after each completed operation, and `active` never exceeds `capacity`. -/
theorem pool_capacity_invariant (c m : Nat) (p0 p : ResourcePool)
    (hnew : NewResourcePool c m = some p0)
    (hreach : Relation.ReflTransGen PoolStep p0 p) :
    p.available + p.inUse = (c : Int) ∧ p.active ≤ (c : Int) := by
  have h := poolReach_inv c m p0 p (newResourcePool_inv c m p0 hnew) hreach
  obtain ⟨_, _, _, _, hin, hslots, havail, hact⟩ := h
  refine ⟨havail, ?_⟩
  have h1 : liveCount p.resources ≤ p.resources.length :=
    List.length_filter_le _ _
  have h2 : liveCount p.settingResources ≤ p.settingResources.length :=
    List.length_filter_le _ _
  unfold slots livePool at *
  omega

/-- Witness for C1: a concrete pool of capacity 1 after one completed
`Get`. -/
theorem pool_capacity_invariant_witness :
    NewResourcePool 1 1 = some pool11 ∧
    (poolBusy.available + poolBusy.inUse = (1 : Int) ∧ poolBusy.active ≤ (1 : Int)) := by
  refine ⟨by decide, pool_capacity_invariant 1 1 pool11 poolBusy (by decide) ?_⟩
  exact Relation.ReflTransGen.tail Relation.ReflTransGen.refl
    (PoolStep.getOp false none envOkA pool11)

end Pools

namespace Pools

/-- C2: a `Get` whose context is already expired fails fast with
`ErrCtxTimeout`, leaving the pool untouched (the wait is never entered); a
`Get` that finds both channels empty on an open pool and is cancelled while
waiting returns `ErrTimeout`; the two errors are distinct values with
distinct vtrpc codes. -/
theorem get_cancellation_errors (setting : Option Setting) (env : GetEnv) (p : ResourcePool) :
    ResourcePool.Get true setting env p = (GetResult.err GetErr.ctxTimeout, p) ∧
    (p.resources = [] → p.settingResources = [] → p.closed = false →
      env.ctxCancelledDuringWait = true →
      (ResourcePool.get env p).1 = GetResult.err GetErr.timeout ∧
      (∀ s : Setting, (ResourcePool.getWithSettings s env p).1 = GetResult.err GetErr.timeout)) ∧
    GetErr.ctxTimeout ≠ GetErr.timeout ∧
    GetErr.ctxTimeout.vtCode ≠ GetErr.timeout.vtCode := by
  refine ⟨rfl, ?_, by decide, by decide⟩
  intro hres hsr hcl hcw
  constructor
  · unfold ResourcePool.get ResourcePool.fetchPlainFirst
    simp [hres, hsr, hcl, hcw]
  · intro s
    unfold ResourcePool.getWithSettings ResourcePool.fetchSettingFirst
    simp [hres, hsr, hcl, hcw]

/-- Witness for C2 at a concrete exhausted pool. -/
theorem get_cancellation_errors_witness :
    poolBusy.resources = [] ∧ poolBusy.settingResources = [] ∧ poolBusy.closed = false ∧
    envCancelled.ctxCancelledDuringWait = true ∧
    ResourcePool.Get true none envCancelled poolBusy =
      (GetResult.err GetErr.ctxTimeout, poolBusy) ∧
    (ResourcePool.get envCancelled poolBusy).1 = GetResult.err GetErr.timeout ∧
    (ResourcePool.getWithSettings settingA envCancelled poolBusy).1 =
      GetResult.err GetErr.timeout := by
  have h := get_cancellation_errors none envCancelled poolBusy
  exact ⟨by decide, by decide, by decide, by decide, h.1,
    (h.2.1 (by decide) (by decide) (by decide) (by decide)).1,
    (h.2.1 (by decide) (by decide) (by decide) (by decide)).2 settingA⟩

theorem finishGet_diff (r : Resource) (p : ResourcePool) :
    (finishGet r p).2.diffSettingCount = p.diffSettingCount := by
  unfold finishGet
  dsimp only
  split <;> rfl

/-- C3: when the wrapper at the head of `settingResources` holds a resource
whose applied setting equals the requested one, `getWithSettings` hands it
out as is (no reset, no re-apply, `diffSettingCount` unchanged); when the
requested setting differs, the resource is reset and the new setting applied,
and `diffSettingCount` increments by one. -/
theorem settings_fast_path (r : Resource) (sA sB : Setting)
    (env : GetEnv) (p : ResourcePool) (rest : List (Option Resource))
    (hq : p.settingResources = some r :: rest)
    (hset : r.setting = some sA.query) :
    ((ResourcePool.getWithSettings sA env p).1 = GetResult.ok r ∧
     (ResourcePool.getWithSettings sA env p).2.diffSettingCount = p.diffSettingCount) ∧
    (sB.query ≠ sA.query → env.resetResult = Except.ok () → env.applyResult = Except.ok () →
      (ResourcePool.getWithSettings sB env p).1 =
        GetResult.ok { r with setting := some sB.query } ∧
      (ResourcePool.getWithSettings sB env p).2.diffSettingCount =
        p.diffSettingCount + 1) := by
  constructor
  · unfold ResourcePool.getWithSettings ResourcePool.fetchSettingFirst
    simp only [hq]
    unfold getSettingsFinish diffSettingStep unwrapStep applySettingStep
    simp [Resource.IsSettingApplied, Resource.IsSameSetting, hset, finishGet_fst,
      finishGet_diff]
  · intro hne hrr ha
    unfold ResourcePool.getWithSettings ResourcePool.fetchSettingFirst
    simp only [hq]
    unfold getSettingsFinish diffSettingStep unwrapStep applySettingStep
    simp [Resource.IsSettingApplied, Resource.IsSameSetting, hset, hrr, ha,
      Ne.symm hne, finishGet_fst, finishGet_diff]

/-- The settings scenario really arises from the code: a fresh capacity-1
pool serves `getWithSettings(settingA)` by creating `resA` and applying the
setting. -/
theorem settings_scenario_get :
    (ResourcePool.getWithSettings settingA envOkA pool11).1 = GetResult.ok resAWithA := by
  decide

/-- Returning that resource with `Put` queues it, setting still applied, in
`settingResources`. -/
theorem settings_scenario_put :
    ResourcePool.Put (some resAWithA) putEnvFresh poolMidA = PutResult.ok poolPutA := by
  decide

/-- Witness for C3 at the pool obtained by `Get(settingA)` then `Put`. -/
theorem settings_fast_path_witness :
    poolPutA.settingResources = some resAWithA :: [] ∧
    resAWithA.setting = some settingA.query ∧
    settingB.query ≠ settingA.query ∧
    ((ResourcePool.getWithSettings settingA envOkA poolPutA).1 = GetResult.ok resAWithA ∧
     (ResourcePool.getWithSettings settingA envOkA poolPutA).2.diffSettingCount =
       poolPutA.diffSettingCount) ∧
    ((ResourcePool.getWithSettings settingB envOkA poolPutA).1 =
       GetResult.ok { resAWithA with setting := some settingB.query } ∧
     (ResourcePool.getWithSettings settingB envOkA poolPutA).2.diffSettingCount =
       poolPutA.diffSettingCount + 1) := by
  have h := settings_fast_path resAWithA settingA settingB envOkA poolPutA []
    (by decide) (by decide)
  exact ⟨by decide, by decide, by decide, h.1,
    h.2 (by decide) rfl rfl⟩

end Pools

namespace Pools

theorem applySettingStep_not_factoryErr (s : Setting) (env : GetEnv) (r : Resource)
    (p : ResourcePool) (e : Nat) :
    (applySettingStep s env r p).1 ≠ GetResult.err (GetErr.factoryErr e) := by
  unfold applySettingStep
  by_cases hs : r.IsSettingApplied
  · simp [hs, finishGet_fst]
  · cases ha : env.applyResult <;> simp [hs, ha, finishGet_fst]

theorem getFinish_factoryErr (env : GetEnv) (w : Option Resource) (p : ResourcePool) (e : Nat)
    (h : (getFinish env w p).1 = GetResult.err (GetErr.factoryErr e)) :
    env.factory = Except.error e ∧
    (getFinish env w p).2.resources = p.resources ++ [none] ∧
    (getFinish env w p).2.settingResources = p.settingResources ∧
    (getFinish env w p).2.available = p.available := by
  unfold getFinish resetStepPlain unwrapStep at *
  cases w with
  | none =>
    cases hf : env.factory with
    | error e2 => simp_all
    | ok r => simp_all [finishGet_fst]
  | some r =>
    by_cases hs : r.IsSettingApplied
    · simp only [hs, if_true] at *
      cases hrr : env.resetResult with
      | ok u => simp_all [finishGet_fst]
      | error e1 =>
        cases hf : env.factory with
        | error e2 => simp_all
        | ok r2 => simp_all [finishGet_fst]
    · simp only [hs, if_false] at *
      simp_all [finishGet_fst]

theorem getSettingsFinish_factoryErr (s : Setting) (env : GetEnv) (w : Option Resource)
    (p : ResourcePool) (e : Nat)
    (h : (getSettingsFinish s env w p).1 = GetResult.err (GetErr.factoryErr e)) :
    env.factory = Except.error e ∧
    (getSettingsFinish s env w p).2.resources = p.resources ++ [none] ∧
    (getSettingsFinish s env w p).2.settingResources = p.settingResources ∧
    (getSettingsFinish s env w p).2.available = p.available := by
  unfold getSettingsFinish diffSettingStep unwrapStep at *
  cases w with
  | none =>
    cases hf : env.factory with
    | error e2 => simp_all
    | ok r =>
      simp only [hf] at h
      exact absurd h (applySettingStep_not_factoryErr s env r _ e)
  | some r =>
    by_cases hs : r.IsSettingApplied && !(r.IsSameSetting s.query)
    · simp only [hs, if_true] at *
      cases hrr : env.resetResult with
      | ok u =>
        simp only [hrr] at h
        exact absurd h (applySettingStep_not_factoryErr s env _ _ e)
      | error e1 =>
        cases hf : env.factory with
        | error e2 => simp_all
        | ok r2 =>
          simp only [hrr, hf] at h
          exact absurd h (applySettingStep_not_factoryErr s env r2 _ e)
    · simp only [hs, if_false] at *
      exact absurd h (applySettingStep_not_factoryErr s env r _ e)

/-- C4: whenever `Get` (either path) returns a factory error, the error is
exactly the factory's, one empty wrapper has been pushed back, and the total
slot count and the `available` gauge are unchanged — no capacity is lost;
moreover an empty head slot with a failing factory does produce that error. -/
theorem factory_failure_preserves_capacity (p : ResourcePool) (env : GetEnv) (e : Nat)
    (s : Setting) (rest : List (Option Resource)) :
    ((ResourcePool.get env p).1 = GetResult.err (GetErr.factoryErr e) →
      env.factory = Except.error e ∧
      slots (ResourcePool.get env p).2 = slots p ∧
      (ResourcePool.get env p).2.available = p.available) ∧
    ((ResourcePool.getWithSettings s env p).1 = GetResult.err (GetErr.factoryErr e) →
      env.factory = Except.error e ∧
      slots (ResourcePool.getWithSettings s env p).2 = slots p ∧
      (ResourcePool.getWithSettings s env p).2.available = p.available) ∧
    (p.resources = none :: rest → env.factory = Except.error e →
      (ResourcePool.get env p).1 = GetResult.err (GetErr.factoryErr e)) := by
  refine ⟨?_, ?_, ?_⟩
  · intro h
    unfold ResourcePool.get ResourcePool.fetchPlainFirst at *
    cases hres : p.resources with
    | cons w rest2 =>
      rw [hres] at h
      obtain ⟨h1, h2, h3, h4⟩ := getFinish_factoryErr env w _ e h
      refine ⟨h1, ?_, ?_⟩ <;> simp_all [slots] <;> omega
    | nil =>
      cases hsr : p.settingResources with
      | cons w rest2 =>
        rw [hres, hsr] at h
        obtain ⟨h1, h2, h3, h4⟩ := getFinish_factoryErr env w _ e h
        refine ⟨h1, ?_, ?_⟩ <;> simp_all [slots] <;> omega
      | nil =>
        rw [hres, hsr] at h
        by_cases hcl : p.closed <;> by_cases hcw : env.ctxCancelledDuringWait <;>
          simp [hcl, hcw] at h
  · intro h
    unfold ResourcePool.getWithSettings ResourcePool.fetchSettingFirst at *
    cases hsr : p.settingResources with
    | cons w rest2 =>
      rw [hsr] at h
      obtain ⟨h1, h2, h3, h4⟩ := getSettingsFinish_factoryErr s env w _ e h
      refine ⟨h1, ?_, ?_⟩ <;> simp_all [slots] <;> omega
    | nil =>
      cases hres : p.resources with
      | cons w rest2 =>
        rw [hsr, hres] at h
        obtain ⟨h1, h2, h3, h4⟩ := getSettingsFinish_factoryErr s env w _ e h
        refine ⟨h1, ?_, ?_⟩ <;> simp_all [slots] <;> omega
      | nil =>
        rw [hsr, hres] at h
        by_cases hcl : p.closed <;> by_cases hcw : env.ctxCancelledDuringWait <;>
          simp [hcl, hcw] at h
  · intro hres hf
    unfold ResourcePool.get ResourcePool.fetchPlainFirst
    rw [hres]
    unfold getFinish resetStepPlain unwrapStep
    simp [hf]

/-- Witness for C4: a fresh capacity-1 pool whose factory fails with error
42. -/
theorem factory_failure_preserves_capacity_witness :
    pool11.resources = none :: [] ∧
    envFactoryFail.factory = Except.error 42 ∧
    (ResourcePool.get envFactoryFail pool11).1 = GetResult.err (GetErr.factoryErr 42) ∧
    slots (ResourcePool.get envFactoryFail pool11).2 = slots pool11 ∧
    (ResourcePool.get envFactoryFail pool11).2.available = pool11.available := by
  have h := factory_failure_preserves_capacity pool11 envFactoryFail 42 settingA []
  have h3 := h.2.2 (by decide) rfl
  exact ⟨by decide, rfl, h3, (h.1 h3).2.1, (h.1 h3).2.2⟩

end Pools

namespace Pools

/-- C8 counterexample: on a pool with `capacity < maxCap` (here capacity 1,
maxCap 2) that already holds `capacity` wrapper slots with no outstanding
`Get`, an extra `Put` does not panic — it succeeds, pushing `available` past
`capacity` (and `inUse` below zero).  The panic guards channel fullness
(`maxCap`), not `capacity`. -/
theorem put_beyond_capacity_no_panic :
    NewResourcePool 1 2 = some pool12 ∧
    pool12.inUse = 0 ∧ slots pool12 = 1 ∧ pool12.capacity = 1 ∧
    (ResourcePool.Put (some resA) putEnvFresh pool12).isOk = true ∧
    ((ResourcePool.Put (some resA) putEnvFresh pool12).getOk pool12).available = 2 ∧
    ((ResourcePool.Put (some resA) putEnvFresh pool12).getOk pool12).inUse = -1 := by
  decide

/-- C8 (amended): a `Put` whose destination channel already holds `maxCap`
wrappers panics; in particular, on a pool created with `capacity = maxCap`,
an unmatched `Put` beyond capacity is the programming-error panic. -/
theorem put_full_channel_panics (p : ResourcePool) (r : Resource) (env : PutEnv)
    (hs : r.setting = none) (hlen : p.maxCap ≤ p.resources.length) :
    ResourcePool.Put (some r) env p =
      PutResult.panicked ("attempt to Put into a full ResourcePool") := by
  unfold ResourcePool.Put ResourcePool.reopenResource
  by_cases he : env.expired
  · cases hf : env.factory with
    | ok r2 =>
      simp [he, hf, Resource.IsSettingApplied, hs]
      omega
    | error e =>
      simp [he, hf, Resource.IsSettingApplied, hs]
      omega
  · simp [he, Resource.IsSettingApplied, hs]
    omega

/-- Witness for C8's amended statement: the capacity-1 = maxCap-1 pool. -/
theorem put_full_channel_panics_witness :
    resA.setting = none ∧ pool11.maxCap ≤ pool11.resources.length ∧
    ResourcePool.Put (some resA) putEnvFresh pool11 =
      PutResult.panicked ("attempt to Put into a full ResourcePool") :=
  ⟨rfl, by decide, put_full_channel_panics pool11 resA putEnvFresh rfl (by decide)⟩

end Pools

namespace Pools

theorem growLoop_spec (k : Nat) (p : ResourcePool) :
    ResourcePool.growLoop k p =
      { p with
        resources := p.resources ++ List.replicate k none
        available := p.available + k } := by
  induction k generalizing p with
  | zero => simp [ResourcePool.growLoop]
  | succ j ih =>
    rw [ResourcePool.growLoop, ih]
    simp [List.replicate_succ]
    omega

/-- C10: a pool closed via `SetCapacity(0)` (equivalently `Close`) is
reopened by `SetCapacity(n)` with `0 < n ≤ maxCap`: both channels are
recreated, `n` empty slots are installed, `nil` is returned, and a subsequent
`Get` succeeds (creating a resource through the factory) instead of failing
with `ErrClosed`. -/
theorem setcapacity_reopens_pool (p : ResourcePool) (n : Int) (r : Resource) (env : GetEnv)
    (hcl : p.closed = true) (hcap : p.capacity = 0)
    (hn : 0 < n) (hm : n ≤ (p.maxCap : Int)) (hf : env.factory = Except.ok r) :
    ∃ q : ResourcePool,
      ResourcePool.SetCapacity n p = SetCapResult.done none q ∧
      q.closed = false ∧
      q.resources = List.replicate n.toNat none ∧
      q.settingResources = [] ∧
      q.capacity = n ∧
      q.available = p.available + n ∧
      (q.get env).1 = GetResult.ok r := by
  have h1 : ¬ (n < 0 ∨ (p.maxCap : Int) < n) := by omega
  have h2 : ¬ ((0 : Int) = n) := by omega
  have h3 : ¬ (n < 0) := by omega
  have h4 : ¬ (n = 0) := by omega
  have hnt : ((n.toNat : Int)) = n := Int.toNat_of_nonneg (by omega)
  unfold ResourcePool.SetCapacity
  rw [if_neg h1]
  dsimp only
  rw [hcap]
  rw [if_pos (⟨rfl, hn⟩ : ((0 : Int) = 0 ∧ 0 < n))]
  rw [if_neg h2, if_neg (show ¬ (n < 0) from h3)]
  dsimp only
  rw [if_neg h4, growLoop_spec]
  refine ⟨_, rfl, rfl, ?_, rfl, rfl, ?_, ?_⟩
  · simp
  · simp [hnt]
  · have hrep : List.replicate (n - 0).toNat (none : Option Resource) =
        none :: List.replicate ((n - 0).toNat - 1) none := by
      have he : (n - 0).toNat = ((n - 0).toNat - 1) + 1 := by omega
      nth_rewrite 1 [he]
      rw [List.replicate_succ]
    unfold ResourcePool.get ResourcePool.fetchPlainFirst
    simp only [List.nil_append, hrep]
    unfold getFinish resetStepPlain unwrapStep
    simp [hf, finishGet_fst]

end Pools

namespace Pools

/-- The closed pool in the scenarios really arises from `SetCapacity(0)` on a
fresh capacity-1 pool. -/
theorem close_scenario :
    ResourcePool.SetCapacity 0 pool11 = SetCapResult.done none poolClosed := by
  decide

/-- Witness for C10: reopening the concrete closed pool with capacity 1. -/
theorem setcapacity_reopens_pool_witness :
    poolClosed.closed = true ∧ poolClosed.capacity = 0 ∧
    (0 : Int) < 1 ∧ (1 : Int) ≤ (poolClosed.maxCap : Int) ∧
    envOkA.factory = Except.ok resA ∧
    (∃ q : ResourcePool,
      ResourcePool.SetCapacity 1 poolClosed = SetCapResult.done none q ∧
      q.closed = false ∧
      q.resources = List.replicate (1 : Int).toNat none ∧
      q.settingResources = [] ∧
      q.capacity = 1 ∧
      q.available = poolClosed.available + 1 ∧
      (q.get envOkA).1 = GetResult.ok resA) := by
  refine ⟨by decide, by decide, by decide, by decide, rfl, ?_⟩
  exact setcapacity_reopens_pool poolClosed 1 resA envOkA (by decide) (by decide)
    (by decide) (by decide) rfl

end Pools

namespace Tabletserver

/-- C5: every panic recovered in `handlePanicAndSendLogStats` leaves the
process alive, increments the internal-error ("Panic") counter by one,
records on the log stats an UNKNOWN-code error whose message carries the
captured stack trace, and the log record is still sent exactly when `Method`
is nonempty. -/
theorem panic_recovered (x stack q : String) (l : LogStats) (cnt : Int) :
    (handlePanicAndSendLogStats (some x) stack q (some l) cnt).crashed = false ∧
    (handlePanicAndSendLogStats (some x) stack q (some l) cnt).internalErrorsPanic =
      cnt + 1 ∧
    (∃ msg : String,
      (handlePanicAndSendLogStats (some x) stack q (some l) cnt).logStats =
        some { l with ErrorField := some { code := Vtrpc.Code.UNKNOWN, msg := msg } } ∧
      ∃ pre : String, msg = pre ++ stack) ∧
    (handlePanicAndSendLogStats (some x) stack q (some l) cnt).statsSent =
      (l.Method != "") := by
  refine ⟨rfl, rfl, ⟨_, rfl, ⟨"Uncaught panic for " ++ q ++ ":\n" ++ x ++ "\n", rfl⟩⟩, rfl⟩

/-- C6: with TerseErrors on, a client-visible MySQL error whose converted
code is not FAILED_PRECONDITION is rebuilt purely from errno, sqlstate,
caller id and the sanitized query (raw MySQL message dropped, bind variables
redacted); a FAILED_PRECONDITION error keeps the raw MySQL message as the
prefix of the returned message. -/
theorem terse_error_stripping (sql : String) (bv : List (String × String))
    (e : SQLErr) (cid : String) :
    (convertErrorCode (TabletErr.sqlErr e) ≠ Vtrpc.Code.FAILED_PRECONDITION →
      convertAndLogError true sql bv (TabletErr.sqlErr e) cid =
        { code := convertErrorCode (TabletErr.sqlErr e)
          msg := "(errno " ++ toString e.num ++ ") (sqlstate " ++ e.sqlState ++ ")" ++
            cid ++ ": " ++ queryAsString sql bv true }) ∧
    (bv.isEmpty = false →
      queryAsString sql bv true =
        "Sql: \"" ++ sql ++ "\", BindVars: \x7b[REDACTED]\x7d") ∧
    (convertErrorCode (TabletErr.sqlErr e) = Vtrpc.Code.FAILED_PRECONDITION →
      ∃ rest : String,
        (convertAndLogError true sql bv (TabletErr.sqlErr e) cid).msg =
          e.message ++ rest) := by
  refine ⟨?_, ?_, ?_⟩
  · intro h
    unfold convertAndLogError
    simp [h]
  · intro h
    unfold queryAsString
    simp [h, String.append_assoc]
  · intro h
    unfold convertAndLogError
    refine ⟨" (errno " ++ (toString e.num ++ (") (sqlstate " ++ (e.sqlState ++ (")" ++
      (cid ++ (": " ++ queryAsString sql bv false)))))), ?_⟩
    simp [h, String.append_assoc]

/-- Witness for C6: a duplicate-entry error (ALREADY_EXISTS) is stripped; a
no-database-selected error (FAILED_PRECONDITION) keeps its raw message. -/
theorem terse_error_stripping_witness :
    convertErrorCode (TabletErr.sqlErr sqlErrDup) ≠ Vtrpc.Code.FAILED_PRECONDITION ∧
    convertAndLogError true ("insert into t") [("v", "secret")]
        (TabletErr.sqlErr sqlErrDup) "" =
      { code := convertErrorCode (TabletErr.sqlErr sqlErrDup)
        msg := "(errno " ++ toString sqlErrDup.num ++ ") (sqlstate " ++
          sqlErrDup.sqlState ++ ")" ++ "" ++ ": " ++
          queryAsString ("insert into t") [("v", "secret")] true } ∧
    convertErrorCode (TabletErr.sqlErr sqlErrNoDb) = Vtrpc.Code.FAILED_PRECONDITION ∧
    (∃ rest : String,
      (convertAndLogError true ("select 1") [] (TabletErr.sqlErr sqlErrNoDb) "").msg =
        sqlErrNoDb.message ++ rest) := by
  refine ⟨by decide, ?_, by decide, ?_⟩
  · exact (terse_error_stripping ("insert into t") [("v", "secret")] sqlErrDup "").1
      (by decide)
  · exact (terse_error_stripping ("select 1") [] sqlErrNoDb "").2.2 (by decide)

/-- C7: `Execute` and `StreamExecute` reject with the internal-bug error
exactly when both `transactionID` and `reservedID` are non-zero and differ;
when they are equal or at most one is non-zero the check lets the call
proceed. -/
theorem tx_reserved_mismatch_guard (t r : Int) :
    (t ≠ 0 → r ≠ 0 → t ≠ r →
      executeTxCheck t r = ExecAdmission.rejected txMismatchErr ∧
      streamExecuteTxCheck t r = ExecAdmission.rejected txMismatchErr ∧
      txMismatchErr.code = Vtrpc.Code.INTERNAL) ∧
    ((t = 0 ∨ r = 0 ∨ t = r) →
      executeTxCheck t r = ExecAdmission.proceed ∧
      streamExecuteTxCheck t r = ExecAdmission.proceed) := by
  constructor
  · intro h1 h2 h3
    have hc : t ≠ 0 ∧ r ≠ 0 ∧ t ≠ r := ⟨h1, h2, h3⟩
    unfold executeTxCheck streamExecuteTxCheck
    rw [if_pos hc]
    exact ⟨rfl, rfl, rfl⟩
  · intro h
    have hn : ¬ (t ≠ 0 ∧ r ≠ 0 ∧ t ≠ r) := by
      rintro ⟨a, b, c⟩
      rcases h with h | h | h <;> contradiction
    unfold executeTxCheck streamExecuteTxCheck
    rw [if_neg hn]
    exact ⟨rfl, rfl⟩

/-- Witness for C7 at mismatching, equal, and single-sided ids. -/
theorem tx_reserved_mismatch_guard_witness :
    (executeTxCheck 1 2 = ExecAdmission.rejected txMismatchErr ∧
     streamExecuteTxCheck 1 2 = ExecAdmission.rejected txMismatchErr ∧
     txMismatchErr.code = Vtrpc.Code.INTERNAL) ∧
    (executeTxCheck 5 5 = ExecAdmission.proceed ∧
     streamExecuteTxCheck 5 5 = ExecAdmission.proceed) ∧
    (executeTxCheck 0 3 = ExecAdmission.proceed ∧
     streamExecuteTxCheck 0 3 = ExecAdmission.proceed) :=
  ⟨(tx_reserved_mismatch_guard 1 2).1 (by decide) (by decide) (by decide),
   (tx_reserved_mismatch_guard 5 5).2 (Or.inr (Or.inr rfl)),
   (tx_reserved_mismatch_guard 0 3).2 (Or.inl rfl)⟩

/-- C9: the externally reported servingness is SERVING exactly when
`state = Serving`, `wantState = Serving` and lameduck is off; every other
combination (lameduck included) reports NOT_SERVING.  The concrete vectors
mirror `TestStateManagerStateByName`. -/
theorem is_serving_string_spec (sm : StateManager) :
    (sm.IsServingString = "SERVING" ↔
      (sm.state = ServingState.Serving ∧ sm.wantState = ServingState.Serving ∧
        sm.lameduck = false)) ∧
    (¬ (sm.state = ServingState.Serving ∧ sm.wantState = ServingState.Serving ∧
        sm.lameduck = false) → sm.IsServingString = "NOT_SERVING") ∧
    StateManager.IsServingString smBase = "NOT_SERVING" ∧
    StateManager.IsServingString { smBase with state := ServingState.NotServing } =
      "NOT_SERVING" ∧
    StateManager.IsServingString { smBase with state := ServingState.Serving } =
      "SERVING" ∧
    StateManager.IsServingString { smBase with state := ServingState.Serving, wantState := ServingState.NotServing } = "NOT_SERVING" ∧
    StateManager.IsServingString smLame = "NOT_SERVING" := by
  refine ⟨?_, ?_, by decide, by decide, by decide, by decide, by decide⟩
  · unfold StateManager.IsServingString
    by_cases h : sm.state = ServingState.Serving ∧ sm.wantState = ServingState.Serving ∧
        sm.lameduck = false
    · rw [if_pos h]
      simp [h]
    · rw [if_neg h]
      simp [h]
  · intro h
    unfold StateManager.IsServingString
    rw [if_neg h]

/-- Witness for C9 at the lameduck state manager. -/
theorem is_serving_string_spec_witness :
    ¬ (smLame.state = ServingState.Serving ∧ smLame.wantState = ServingState.Serving ∧
        smLame.lameduck = false) ∧
    smLame.IsServingString = "NOT_SERVING" :=
  ⟨by decide, (is_serving_string_spec smLame).2.1 (by decide)⟩

end Tabletserver
